import Mathlib

/-!
Shallow embedding of mindspore/ops/operations/control_ops.py.

The file declares three control-flow primitives: ControlDepend, GeSwitch and
Merge. Each primitive carries attribute validation and shape/dtype inference
rules. The validator helpers (from the _checkparam module) and the dtype
universe (from the common dtype module) are not part of the excerpt, so they
are modelled from the spec; the operator bodies are translated from the source.
-/

/-- Modelled from the spec: the element types of the common dtype module
(mstype). The valid set for Merge is the boolean type together with the
numeric types; the universe also holds a non-numeric, non-boolean type
(string) so that membership in the valid set is not vacuous. -/
inductive ElemType where
  | bool_
  | int8
  | int16
  | int32
  | int64
  | uint8
  | uint16
  | uint32
  | uint64
  | float16
  | float32
  | float64
  | string_
  deriving DecidableEq, Repr

/-- Modelled from the spec: a dtype as seen by the inference hooks is either a
tensor type with an element type, or a scalar type. -/
inductive MSType where
  | tensor_type (elt : ElemType)
  | scalar (elt : ElemType)
  deriving DecidableEq, Repr

/-- The element type carried by a dtype. -/
def MSType.element : MSType → ElemType
  | .tensor_type e => e
  | .scalar e => e

/-- Modelled from the spec: mstype.number_type, the tuple of numeric element
types (integers, unsigned integers and floats; boolean and string are not
numeric). -/
def number_type : List ElemType :=
  [.int8, .int16, .int32, .int64, .uint8, .uint16, .uint32, .uint64,
   .float16, .float32, .float64]

/-- Whether an element type belongs to mstype.number_type. -/
def ElemType.isNumber (e : ElemType) : Bool :=
  number_type.contains e

/-- Whether a dtype is a tensor type or a numeric scalar, the class tuple
(mstype.tensor,) + mstype.number_type used by GeSwitch. -/
def MSType.isTensorOrNumber : MSType → Bool
  | .tensor_type _ => true
  | .scalar e => e.isNumber

/-- The structured error kinds of the spec, plus the unstructured indexing
error a Python sequence access raises when out of range. -/
inductive ErrKind where
  | invalidArgument
  | shapeError
  | typeError
  | notImplemented
  | conflict
  | failedPrecondition
  | indexError
  deriving DecidableEq, Repr

/-- A shape is the ordered list of dimensions; the rank is its length. -/
abbrev Shape := List Nat

/-- Python sequence indexing: an out-of-range access raises an unstructured
IndexError rather than any structured error kind. -/
def pyGet {α : Type} (xs : List α) (i : Nat) : Except ErrKind α :=
  match xs.get? i with
  | some v => .ok v
  | none => .error .indexError

/-- Modelled from the spec: validator.check_int_range with Rel.INC_BOTH (the
_checkparam module is not in the excerpt). The value must lie in the closed
interval; otherwise validation fails with an InvalidArgument error. -/
def check_int_range (v lo hi : Int) : Except ErrKind Unit :=
  if lo ≤ v ∧ v ≤ hi then .ok () else .error .invalidArgument

/-- Modelled from the spec: validator.check_integer with Rel.EQ, as used on
the predicate rank (the _checkparam module is not in the excerpt). A rank
different from the bound makes the shape check fail with ShapeError. -/
def check_integer_eq (v bound : Nat) : Except ErrKind Unit :=
  if v = bound then .ok () else .error .shapeError

/-- Modelled from the spec: validator.check_subclass against the class tuple
(mstype.tensor,) + mstype.number_type (the _checkparam module is not in the
excerpt). A dtype outside the tuple fails with TypeError. -/
def check_subclass (t : MSType) : Except ErrKind Unit :=
  if t.isTensorOrNumber then .ok () else .error .typeError

/-- Modelled from the spec: validator.check_tensor_type_same (the _checkparam
module is not in the excerpt). The argument must be a tensor type whose
element type is among the valid values; otherwise TypeError. -/
def check_tensor_type_same (t : MSType) (valid : List ElemType) :
    Except ErrKind Unit :=
  match t with
  | .tensor_type e => if e ∈ valid then .ok () else .error .typeError
  | .scalar _ => .error .typeError

/-- Modelled from the spec: validator.check_scalar_or_tensor_type_same (the
_checkparam module is not in the excerpt). All arguments, scalar or tensor,
must share one element type from the valid set; a mismatch or an element type
outside the set fails with TypeError listing the offending slot. -/
def check_scalar_or_tensor_type_same (args : List MSType)
    (valid : List ElemType) : Except ErrKind Unit :=
  match args with
  | [] => .ok ()
  | a :: rest =>
      if a.element ∈ valid ∧ ∀ u ∈ rest, u.element = a.element then .ok ()
      else .error .typeError

/-- A runtime Python value, as far as the call paths of this file need one. -/
inductive PyValue where
  | bool (b : Bool)
  | int (n : Int)
  deriving DecidableEq, Repr

/-- ControlDepend.__init__: validates depend_mode against the inclusive range
[0, 1]. -/
def ControlDepend.init (depend_mode : Int) : Except ErrKind Unit :=
  check_int_range depend_mode 0 1

/-- ControlDepend.__call__: the source returns src unchanged. -/
def ControlDepend.call {α β : Type} (src : α) (dst : β) : α :=
  src

/-- GeSwitch.__call__: raises NotImplementedError. -/
def GeSwitch.call (data pred : PyValue) : Except ErrKind PyValue :=
  .error .notImplemented

/-- GeSwitch.infer_shape: checks the predicate rank is 0, then returns the
data shape twice. -/
def GeSwitch.infer_shape (data pred : Shape) :
    Except ErrKind (Shape × Shape) :=
  match check_integer_eq pred.length 0 with
  | .error e => .error e
  | .ok _ => .ok (data, data)

/-- GeSwitch.infer_dtype: checks data is a tensor or a number, checks pred is
a boolean tensor, then returns the data dtype twice. -/
def GeSwitch.infer_dtype (data_type pred_type : MSType) :
    Except ErrKind (MSType × MSType) :=
  match check_subclass data_type with
  | .error e => .error e
  | .ok _ =>
      match check_tensor_type_same pred_type [.bool_] with
      | .error e => .error e
      | .ok _ => .ok (data_type, data_type)

/-- Merge.__call__: raises NotImplementedError. -/
def Merge.call (args : List PyValue) : Except ErrKind PyValue :=
  .error .notImplemented

/-- Merge.infer_shape: returns (inputs[0], [1]); the first element is
accessed unguarded. -/
def Merge.infer_shape (inputs : List Shape) :
    Except ErrKind (Shape × Shape) :=
  match pyGet inputs 0 with
  | .error e => .error e
  | .ok first => .ok (first, [1])

/-- Merge.infer_dtype: validates all candidate dtypes against the boolean and
numeric types, then returns (inputs[0], mstype.int32); the first element is
accessed unguarded. -/
def Merge.infer_dtype (inputs : List MSType) :
    Except ErrKind (MSType × MSType) :=
  match check_scalar_or_tensor_type_same inputs ([.bool_] ++ number_type) with
  | .error e => .error e
  | .ok _ =>
      match pyGet inputs 0 with
      | .error e => .error e
      | .ok first => .ok (first, .scalar .int32)

/-- Modelled from the spec: the graph executor (outside this file) collects
the live candidates reaching a Merge node, with their slot indices. -/
def liveEntries : List (Option PyValue) → Nat → List (PyValue × Nat)
  | [], _ => []
  | none :: rest, i => liveEntries rest (i + 1)
  | some v :: rest, i => (v, i) :: liveEntries rest (i + 1)

/-- Modelled from the spec: how the graph executor resolves the live
candidates of a Merge node — exactly one live candidate is forwarded with its
index, zero live candidates is a FailedPrecondition, several are a
Conflict. -/
def selectLive : List (PyValue × Nat) → Except ErrKind (PyValue × Nat)
  | [] => .error .failedPrecondition
  | [r] => .ok r
  | _ :: _ :: _ => .error .conflict

/-- Modelled from the spec: the runtime execution of a Merge node by the
graph executor, which is not in the excerpt. -/
def Merge.runtime (candidates : List (Option PyValue)) :
    Except ErrKind (PyValue × Nat) :=
  selectLive (liveEntries candidates 0)

/-- C1: for every data shape and every data dtype in the declared input domain
(a tensor or a numeric scalar), with a rank-0 boolean predicate, GeSwitch
inference yields the pair (false_output, true_output) where both components
have exactly the shape and the dtype of the data input. -/
theorem geswitch_infer_same_shape_type (data : Shape) (dt : MSType)
    (h : dt.isTensorOrNumber = true) :
    GeSwitch.infer_shape data [] = .ok (data, data) ∧
    GeSwitch.infer_dtype dt (.tensor_type .bool_) = .ok (dt, dt) := by
  constructor
  · simp [GeSwitch.infer_shape, check_integer_eq]
  · simp [GeSwitch.infer_dtype, check_subclass, h, check_tensor_type_same]

theorem geswitch_infer_same_shape_type_witness :
    MSType.isTensorOrNumber (.tensor_type .float32) = true ∧
    GeSwitch.infer_shape [4, 5] [] = .ok ([4, 5], [4, 5]) ∧
    GeSwitch.infer_dtype (.tensor_type .float32) (.tensor_type .bool_)
      = .ok (.tensor_type .float32, .tensor_type .float32) :=
  ⟨by decide,
   (geswitch_infer_same_shape_type [4, 5] (.tensor_type .float32)
     (by decide)).1,
   (geswitch_infer_same_shape_type [4, 5] (.tensor_type .float32)
     (by decide)).2⟩

/-- C2: for every predicate shape whose rank is not 0, GeSwitch shape
inference fails with ShapeError, whatever the data shape. -/
theorem geswitch_nonscalar_pred_shape_error (data pred : Shape)
    (h : pred.length ≠ 0) :
    GeSwitch.infer_shape data pred = .error .shapeError := by
  simp [GeSwitch.infer_shape, check_integer_eq, h]

theorem geswitch_nonscalar_pred_shape_error_witness :
    List.length [2] ≠ 0 ∧
    GeSwitch.infer_shape [4, 5] [2] = .error .shapeError :=
  ⟨by decide, geswitch_nonscalar_pred_shape_error [4, 5] [2] (by decide)⟩

/-- C3: for every predicate dtype whose element type is not boolean, GeSwitch
dtype inference fails with TypeError, for every valid (tensor or numeric)
data dtype. -/
theorem geswitch_nonbool_pred_type_error (dt pt : MSType)
    (hd : dt.isTensorOrNumber = true) (hp : pt.element ≠ .bool_) :
    GeSwitch.infer_dtype dt pt = .error .typeError := by
  cases pt with
  | tensor_type e =>
      simp [MSType.element] at hp
      simp [GeSwitch.infer_dtype, check_subclass, hd, check_tensor_type_same,
        hp]
  | scalar e =>
      simp [GeSwitch.infer_dtype, check_subclass, hd, check_tensor_type_same]

theorem geswitch_nonbool_pred_type_error_witness :
    MSType.isTensorOrNumber (.tensor_type .float32) = true ∧
    MSType.element (.tensor_type .int32) ≠ .bool_ ∧
    GeSwitch.infer_dtype (.tensor_type .float32) (.tensor_type .int32)
      = .error .typeError :=
  ⟨by decide, by decide,
   geswitch_nonbool_pred_type_error (.tensor_type .float32)
     (.tensor_type .int32) (by decide) (by decide)⟩

/-- C4: ControlDepend construction succeeds for every integer depend_mode in
the inclusive range [0, 1] and fails with an InvalidArgument error for every
other integer. -/
theorem controldepend_depend_mode_range (m : Int) :
    (0 ≤ m ∧ m ≤ 1 → ControlDepend.init m = .ok ()) ∧
    (¬ (0 ≤ m ∧ m ≤ 1) → ControlDepend.init m = .error .invalidArgument) := by
  constructor
  · intro h
    simp [ControlDepend.init, check_int_range, h]
  · intro h
    simp only [ControlDepend.init, check_int_range, if_neg h]

theorem controldepend_depend_mode_range_witness :
    ControlDepend.init 1 = .ok () ∧
    ControlDepend.init 2 = .error .invalidArgument :=
  ⟨(controldepend_depend_mode_range 1).1 (by decide),
   (controldepend_depend_mode_range 2).2 (by decide)⟩

/-- Reduction of Merge dtype inference on a non-empty collection when the
validation condition holds. -/
lemma Merge.infer_dtype_cons_pos (t : MSType) (trest : List MSType)
    (h : t.element ∈ ([ElemType.bool_] ++ number_type) ∧
      ∀ u ∈ trest, u.element = t.element) :
    Merge.infer_dtype (t :: trest) = .ok (t, .scalar .int32) := by
  simp only [Merge.infer_dtype, check_scalar_or_tensor_type_same, if_pos h]
  rfl

/-- Reduction of Merge dtype inference on a non-empty collection when the
validation condition fails. -/
lemma Merge.infer_dtype_cons_neg (t : MSType) (trest : List MSType)
    (h : ¬ (t.element ∈ ([ElemType.bool_] ++ number_type) ∧
      ∀ u ∈ trest, u.element = t.element)) :
    Merge.infer_dtype (t :: trest) = .error .typeError := by
  simp only [Merge.infer_dtype, check_scalar_or_tensor_type_same, if_neg h]

/-- C5: for every non-empty candidate collection, Merge shape inference
returns a pair whose data component has exactly the shape of the first
candidate, and whenever Merge dtype inference returns, the output_index
component is the integer dtype int32 (and the data component is the first
candidate dtype). -/
theorem merge_infer_first_and_int_index (s : Shape) (srest : List Shape) :
    Merge.infer_shape (s :: srest) = .ok (s, [1]) ∧
    ∀ (t : MSType) (trest : List MSType) (r : MSType × MSType),
      Merge.infer_dtype (t :: trest) = .ok r →
      r = (t, .scalar .int32) := by
  constructor
  · simp [Merge.infer_shape, pyGet]
  · intro t trest r hr
    by_cases hc :
        t.element ∈ ([ElemType.bool_] ++ number_type) ∧
          ∀ u ∈ trest, u.element = t.element
    · rw [Merge.infer_dtype_cons_pos t trest hc] at hr
      exact (Except.ok.inj hr).symm
    · rw [Merge.infer_dtype_cons_neg t trest hc] at hr
      exact Except.noConfusion hr

theorem merge_infer_first_and_int_index_witness :
    Merge.infer_shape [[2, 4], [3]] = .ok ([2, 4], [1]) ∧
    (MSType.tensor_type .float32, MSType.scalar .int32)
      = (MSType.tensor_type .float32, MSType.scalar .int32) :=
  ⟨(merge_infer_first_and_int_index [2, 4] [[3]]).1,
   (merge_infer_first_and_int_index [2, 4] [[3]]).2
     (.tensor_type .float32) [.tensor_type .float32]
     (.tensor_type .float32, .scalar .int32) (by rfl)⟩

/-- C6: for every non-empty candidate collection, Merge dtype inference fails
with TypeError exactly when the candidate element types mismatch or lie
outside the set of boolean and numeric types, and succeeds when all
candidates share one element type from that set. -/
theorem merge_infer_dtype_typecheck (t : MSType) (trest : List MSType) :
    (¬ (t.element ∈ ([ElemType.bool_] ++ number_type) ∧
          ∀ u ∈ trest, u.element = t.element) →
        Merge.infer_dtype (t :: trest) = .error .typeError) ∧
    (t.element ∈ ([ElemType.bool_] ++ number_type) ∧
        (∀ u ∈ trest, u.element = t.element) →
        Merge.infer_dtype (t :: trest) = .ok (t, .scalar .int32)) :=
  ⟨Merge.infer_dtype_cons_neg t trest, Merge.infer_dtype_cons_pos t trest⟩

theorem merge_infer_dtype_typecheck_witness :
    Merge.infer_dtype [.tensor_type .int32, .tensor_type .float32]
      = .error .typeError ∧
    Merge.infer_dtype [.scalar .string_] = .error .typeError ∧
    Merge.infer_dtype [.tensor_type .int32, .scalar .int32]
      = .ok (.tensor_type .int32, .scalar .int32) :=
  ⟨(merge_infer_dtype_typecheck (.tensor_type .int32)
      [.tensor_type .float32]).1 (by decide),
   (merge_infer_dtype_typecheck (.scalar .string_) []).1 (by decide),
   (merge_infer_dtype_typecheck (.tensor_type .int32) [.scalar .int32]).2
     (by decide)⟩

/-- C7: for every argument tuple, calling GeSwitch or Merge directly (outside
a graph context) fails with the NotImplemented error and nothing else: the
result is exactly that error value. -/
theorem call_outside_graph_not_implemented :
    (∀ data pred : PyValue, GeSwitch.call data pred
        = .error .notImplemented) ∧
    (∀ args : List PyValue, Merge.call args = .error .notImplemented) :=
  ⟨fun _ _ => rfl, fun _ => rfl⟩

/-- C8: the claim says ControlDepend yields a boolean sentinel carrying no
data from its inputs, and the docstring of the source says the output is
Bool with no actual data; but the source returns src unchanged, so on a
non-boolean src the call yields that very input and no boolean at all. -/
theorem controldepend_call_returns_src :
    ControlDepend.call (PyValue.int 5) (PyValue.int 7) = PyValue.int 5 ∧
    ∀ b : Bool, ControlDepend.call (PyValue.int 5) (PyValue.int 7)
      ≠ PyValue.bool b :=
  ⟨rfl, fun b => by simp [ControlDepend.call]⟩

/-- A collection of dead candidates contributes no live entries. -/
lemma liveEntries_all_none (l : List (Option PyValue)) (i : Nat)
    (h : ∀ x ∈ l, x = none) : liveEntries l i = [] := by
  induction l generalizing i with
  | nil => rfl
  | cons a rest ih =>
      have ha := h a (List.mem_cons_self a rest)
      subst ha
      simpa [liveEntries] using
        ih (i + 1) fun x hx => h x (List.mem_cons_of_mem _ hx)

/-- With exactly one live candidate, the live entries are that value at its
slot index. -/
lemma liveEntries_single (a b : List (Option PyValue)) (v : PyValue) (i : Nat)
    (ha : ∀ x ∈ a, x = none) (hb : ∀ x ∈ b, x = none) :
    liveEntries (a ++ some v :: b) i = [(v, i + a.length)] := by
  induction a generalizing i with
  | nil =>
      simp [liveEntries, liveEntries_all_none b (i + 1) hb]
  | cons x rest ih =>
      have hx := ha x (List.mem_cons_self x rest)
      subst hx
      have h2 := ih (i + 1) fun y hy => ha y (List.mem_cons_of_mem _ hy)
      have h3 : i + 1 + rest.length = i + (rest.length + 1) := by omega
      rw [List.cons_append,
        show liveEntries (none :: (rest ++ some v :: b)) i
          = liveEntries (rest ++ some v :: b) (i + 1) from rfl,
        h2, List.length_cons, h3]

/-- The number of live entries equals the number of produced candidates. -/
lemma liveEntries_length (l : List (Option PyValue)) (i : Nat) :
    (liveEntries l i).length = l.countP (fun x => x.isSome) := by
  induction l generalizing i with
  | nil => rfl
  | cons a rest ih =>
      cases a <;> simp [liveEntries, List.countP_cons, ih]

/-- C9: at runtime, a Merge execution with exactly one live candidate yields
that value together with its slot index; with zero live candidates it fails
with FailedPrecondition; with two or more live candidates it fails with
Conflict, never silently picking one. -/
theorem merge_runtime_liveness (cands : List (Option PyValue)) :
    ((∀ x ∈ cands, x = none) →
        Merge.runtime cands = .error .failedPrecondition) ∧
    (∀ (a : List (Option PyValue)) (v : PyValue) (b : List (Option PyValue)),
        cands = a ++ some v :: b →
        (∀ x ∈ a, x = none) → (∀ x ∈ b, x = none) →
        Merge.runtime cands = .ok (v, a.length)) ∧
    (2 ≤ cands.countP (fun x => x.isSome) →
        Merge.runtime cands = .error .conflict) := by
  refine ⟨?_, ?_, ?_⟩
  · intro h
    simp [Merge.runtime, liveEntries_all_none cands 0 h, selectLive]
  · intro a v b hc ha hb
    subst hc
    simp [Merge.runtime, liveEntries_single a b v 0 ha hb, selectLive]
  · intro h
    have hl : 2 ≤ (liveEntries cands 0).length := by
      rw [liveEntries_length]
      exact h
    rcases hE : liveEntries cands 0 with _ | ⟨x, _ | ⟨y, rest⟩⟩
    · rw [hE] at hl
      simp at hl
    · rw [hE] at hl
      simp at hl
    · simp [Merge.runtime, hE, selectLive]

theorem merge_runtime_liveness_witness :
    Merge.runtime [none, some (PyValue.int 3), none]
      = .ok (PyValue.int 3, 1) ∧
    Merge.runtime [none, none] = .error .failedPrecondition ∧
    Merge.runtime [some (PyValue.int 1), some (PyValue.int 2)]
      = .error .conflict :=
  ⟨(merge_runtime_liveness [none, some (PyValue.int 3), none]).2.1
      [none] (PyValue.int 3) [none] rfl (by decide) (by decide),
   (merge_runtime_liveness [none, none]).1 (by decide),
   (merge_runtime_liveness [some (PyValue.int 1), some (PyValue.int 2)]).2.2
      (by decide)⟩

/-- C10: Merge shape and dtype inference access the first candidate
unguarded: on the empty collection both fail with the unstructured indexing
error, not with a structured error kind; on any non-empty collection the
access is in bounds, so shape inference succeeds and dtype inference never
raises the indexing error. -/
theorem merge_infer_empty_unguarded (s : Shape) (srest : List Shape)
    (t : MSType) (trest : List MSType) :
    Merge.infer_shape ([] : List Shape) = .error .indexError ∧
    Merge.infer_dtype ([] : List MSType) = .error .indexError ∧
    Merge.infer_shape (s :: srest) = .ok (s, [1]) ∧
    Merge.infer_dtype (t :: trest) ≠ .error .indexError := by
  refine ⟨rfl, rfl, by simp [Merge.infer_shape, pyGet], ?_⟩
  by_cases hc :
      t.element ∈ ([ElemType.bool_] ++ number_type) ∧
        ∀ u ∈ trest, u.element = t.element
  · rw [Merge.infer_dtype_cons_pos t trest hc]
    simp
  · rw [Merge.infer_dtype_cons_neg t trest hc]
    simp
